import Mathlib

/-!
Verification development for the scribble note-ingestion pipeline.

The definitions below are shallow embeddings of the Python sources:
`src/file_processors.py`, `src/folder_monitor.py`, `src/database_manager.py`,
`src/digest_generator.py`, `src/llm_service.py`.  External effects (the
Anthropic API, pytesseract OCR, pdf2image/PyMuPDF rendering, file reads)
are modelled as explicit oracle parameters: an oracle value records what
the external call would have returned, or that it raised.  Machine-level
details that no claim touches (exact timestamps, float rounding of
words-per-page, unicode word characters in the hashtag regex) are noted
where they are abstracted.
-/

/-- Outcome of calling an external (or otherwise fallible) operation:
either the call raised an exception carrying a message, or it returned. -/
inductive Call (α : Type) where
  | raises (msg : String)
  | returns (val : α)
deriving DecidableEq, Repr

/-- Number of whitespace-separated words, as Python str.split with no
separator counts them (split on whitespace runs, drop empty pieces). -/
def pyWordsGo : List Char → Bool → Nat
  | [], _ => 0
  | c :: rest, inWord =>
    if c.isWhitespace then pyWordsGo rest false
    else if inWord then pyWordsGo rest true
    else 1 + pyWordsGo rest true

def pyWordCount (s : String) : Nat :=
  pyWordsGo s.toList false

/-- listStarts l m: the char list l starts with m (Python str.startswith). -/
def listStarts : List Char → List Char → Bool
  | _, [] => true
  | [], _ :: _ => false
  | c :: cs, d :: ds => c = d && listStarts cs ds

def listContains (hay needle : List Char) : Bool :=
  match hay with
  | [] => listStarts [] needle
  | _ :: rest => listStarts hay needle || listContains rest needle

/-- Python `sub in s` membership test for strings. -/
def pyContains (sub s : String) : Bool :=
  listContains s.toList sub.toList

/-- Python str.strip over a char list. -/
def pyStripChars (cs : List Char) : List Char :=
  ((cs.dropWhile Char.isWhitespace).reverse.dropWhile Char.isWhitespace).reverse

/-- Python str.split on a newline separator over a char list. -/
def splitLinesGo : List Char → List Char → List (List Char)
  | [], cur => [cur.reverse]
  | c :: rest, cur =>
    if c = '\n' then cur.reverse :: splitLinesGo rest []
    else splitLinesGo rest (c :: cur)

/-- Python values as produced by json.loads: the subset of Python objects
that JSON decoding can return.  Floats are kept as their literal text,
since no claim computes with them. -/
inductive PyVal where
  | str (s : String)
  | num (n : Int)
  | flt (lit : String)
  | bool (b : Bool)
  | null
  | list (xs : List PyVal)
  | dict (kvs : List (String × PyVal))

/-- Zero test for a JSON float literal: the value is zero exactly when
every mantissa digit (before any exponent marker) is zero - the exponent
cannot make a nonzero mantissa zero.  This models Python float
truthiness of the parsed value; a nonzero literal so small that the
float underflows to zero is beyond this model and no theorem relies on
the float case. -/
def pyFloatLitZero (l : String) : Bool :=
  ((l.toList.takeWhile (fun c => c ≠ 'e' ∧ c ≠ 'E')).filter Char.isDigit).all
    (fun c => c = '0')

/-- Python truthiness of a decoded JSON value. -/
def pyTruthy : PyVal → Bool
  | PyVal.str s => s ≠ ""
  | PyVal.num n => n ≠ 0
  | PyVal.flt l => !pyFloatLitZero l
  | PyVal.bool b => b
  | PyVal.null => false
  | PyVal.list xs => !xs.isEmpty
  | PyVal.dict kvs => !kvs.isEmpty

/-- Whether a decoded JSON value is an object (a Python dict), the only
element kind that contributes a line in the chat-message loops. -/
def PyVal.isDict : PyVal → Bool
  | PyVal.dict _ => true
  | _ => false

/-- Python str() of a decoded JSON value.  Only the string case is ever
exercised by the embedded code paths proved about below; the container
cases abbreviate the repr. -/
def pyStr : PyVal → String
  | PyVal.str s => s
  | PyVal.num n => toString n
  | PyVal.flt l => l
  | PyVal.bool b => if b then "True" else "False"
  | PyVal.null => "None"
  | PyVal.list _ => "[...]"
  | PyVal.dict _ => "\x7b...\x7d"

/-- Lookup in a decoded JSON object (keys are unique after parsing,
Python dict semantics: last duplicate wins, first position kept). -/
def pyDictGet (kvs : List (String × PyVal)) (k : String) : Option PyVal :=
  (kvs.find? (fun p => p.1 = k)).map (fun p => p.2)

/-- Insert a key/value pair with Python dict update semantics. -/
def pyDictInsert (kvs : List (String × PyVal)) (k : String) (v : PyVal) :
    List (String × PyVal) :=
  if kvs.any (fun p => p.1 = k) then
    kvs.map (fun p => if p.1 = k then (p.1, v) else p)
  else kvs ++ [(k, v)]

/-- JSON whitespace accepted between tokens by json.loads. -/
def jsonWs (c : Char) : Bool :=
  c = ' ' || c = '\t' || c = '\n' || c = '\r'

def jsonHexDigit (c : Char) : Option Nat :=
  if '0' ≤ c ∧ c ≤ '9' then some (c.toNat - '0'.toNat)
  else if 'a' ≤ c ∧ c ≤ 'f' then some (c.toNat - 'a'.toNat + 10)
  else if 'A' ≤ c ∧ c ≤ 'F' then some (c.toNat - 'A'.toNat + 10)
  else none

/-- Parse the body of a JSON string literal after the opening quote. -/
def jsonParseStr : Nat → List Char → Option (String × List Char)
  | 0, _ => none
  | _ + 1, [] => none
  | fuel + 1, c :: rest =>
    if c = '"' then some ("", rest)
    else if c = '\\' then
      match rest with
      | [] => none
      | e :: rest2 =>
        let dec : Option Char :=
          if e = '"' then some '"'
          else if e = '\\' then some '\\'
          else if e = '/' then some '/'
          else if e = 'n' then some '\n'
          else if e = 't' then some '\t'
          else if e = 'r' then some '\r'
          else if e = 'b' then some (Char.ofNat 8)
          else if e = 'f' then some (Char.ofNat 12)
          else none
        match dec with
        | some d =>
          match jsonParseStr fuel rest2 with
          | some (s, rem) => some (String.mk (d :: s.toList), rem)
          | none => none
        | none =>
          if e = 'u' then
            match rest2 with
            | h1 :: h2 :: h3 :: h4 :: rest3 =>
              match jsonHexDigit h1, jsonHexDigit h2, jsonHexDigit h3, jsonHexDigit h4 with
              | some a, some b, some c2, some d =>
                let n := ((a * 16 + b) * 16 + c2) * 16 + d
                match jsonParseStr fuel rest3 with
                | some (s, rem) => some (String.mk (Char.ofNat n :: s.toList), rem)
                | none => none
              | _, _, _, _ => none
            | _ => none
          else none
    else
      match jsonParseStr fuel rest with
      | some (s, rem) => some (String.mk (c :: s.toList), rem)
      | none => none

def jsonDigits (cs : List Char) : List Char × List Char :=
  (cs.takeWhile Char.isDigit, cs.dropWhile Char.isDigit)

/-- Parse a JSON number after an optional leading minus has been noted.
Returns the PyVal (int, or float kept as literal) and the remainder.
Mirrors the json grammar: no leading zeros, mandatory digits in the
fraction and exponent. -/
def jsonParseNum (neg : Bool) (cs : List Char) : Option (PyVal × List Char) :=
  let (intPart, rest) := jsonDigits cs
  if intPart = [] then none
  else if intPart.length > 1 ∧ intPart.head? = some '0' then none
  else
    let mkLit (frac expo : List Char) : String :=
      String.mk ((if neg then ['-'] else []) ++ intPart ++ frac ++ expo)
    match rest with
    | '.' :: rest2 =>
      let (fracPart, rest3) := jsonDigits rest2
      if fracPart = [] then none
      else
        match rest3 with
        | 'e' :: rest4 | 'E' :: rest4 =>
          let (sgn, rest5) :=
            match rest4 with
            | '+' :: r => (['+'], r)
            | '-' :: r => (['-'], r)
            | r => (([] : List Char), r)
          let (expPart, rest6) := jsonDigits rest5
          if expPart = [] then none
          else some (PyVal.flt (mkLit ('.' :: fracPart) ('e' :: sgn ++ expPart)), rest6)
        | _ => some (PyVal.flt (mkLit ('.' :: fracPart) []), rest3)
    | 'e' :: rest2 | 'E' :: rest2 =>
      let (sgn, rest3) :=
        match rest2 with
        | '+' :: r => (['+'], r)
        | '-' :: r => (['-'], r)
        | r => (([] : List Char), r)
      let (expPart, rest4) := jsonDigits rest3
      if expPart = [] then none
      else some (PyVal.flt (mkLit [] ('e' :: sgn ++ expPart)), rest4)
    | _ =>
      let natVal := intPart.foldl (fun acc c => acc * 10 + (c.toNat - '0'.toNat)) 0
      some (PyVal.num (if neg then -(natVal : Int) else (natVal : Int)), rest)

mutual

/-- Parse one JSON value (json.loads grammar; fuel bounds recursion). -/
def jsonParseVal : Nat → List Char → Option (PyVal × List Char)
  | 0, _ => none
  | fuel + 1, cs =>
    match cs.dropWhile jsonWs with
    | [] => none
    | c :: rest =>
      if c = '"' then
        match jsonParseStr (fuel + 1) rest with
        | some (s, rem) => some (PyVal.str s, rem)
        | none => none
      else if c = '[' then
        match (rest.dropWhile jsonWs) with
        | ']' :: rem => some (PyVal.list [], rem)
        | _ => jsonParseArr fuel rest []
      else if c = '\x7b' then
        match (rest.dropWhile jsonWs) with
        | '\x7d' :: rem => some (PyVal.dict [], rem)
        | _ => jsonParseObj fuel rest []
      else if c = 't' then
        if listStarts rest ['r', 'u', 'e'] then some (PyVal.bool true, rest.drop 3) else none
      else if c = 'f' then
        if listStarts rest ['a', 'l', 's', 'e'] then some (PyVal.bool false, rest.drop 4) else none
      else if c = 'n' then
        if listStarts rest ['u', 'l', 'l'] then some (PyVal.null, rest.drop 3) else none
      else if c = '-' then jsonParseNum true rest
      else if c.isDigit then jsonParseNum false (c :: rest)
      else none

/-- Parse the elements of a JSON array after the opening bracket
(the empty-array case is handled by the caller). -/
def jsonParseArr : Nat → List Char → List PyVal → Option (PyVal × List Char)
  | 0, _, _ => none
  | fuel + 1, cs, acc =>
    match jsonParseVal fuel cs with
    | none => none
    | some (v, rem) =>
      match rem.dropWhile jsonWs with
      | ',' :: rem2 => jsonParseArr fuel rem2 (acc ++ [v])
      | ']' :: rem2 => some (PyVal.list (acc ++ [v]), rem2)
      | _ => none

/-- Parse the members of a JSON object after the opening brace
(the empty-object case is handled by the caller). -/
def jsonParseObj : Nat → List Char → List (String × PyVal) →
    Option (PyVal × List Char)
  | 0, _, _ => none
  | fuel + 1, cs, acc =>
    match cs.dropWhile jsonWs with
    | '"' :: rest =>
      match jsonParseStr fuel rest with
      | none => none
      | some (k, rem) =>
        match rem.dropWhile jsonWs with
        | ':' :: rem2 =>
          match jsonParseVal fuel rem2 with
          | none => none
          | some (v, rem3) =>
            let acc2 := pyDictInsert
              acc k v
            match rem3.dropWhile jsonWs with
            | ',' :: rem4 => jsonParseObj fuel rem4 acc2
            | '\x7d' :: rem4 => some (PyVal.dict acc2, rem4)
            | _ => none
        | _ => none
    | _ => none

end

/-- Model of Python json.loads: parses the whole string as one JSON value
(surrounding whitespace allowed); `none` models a raised JSONDecodeError. -/
def jsonLoads (s : String) : Option PyVal :=
  match jsonParseVal (4 * s.length + 16) s.toList with
  | some (v, rem) => if rem.dropWhile jsonWs = [] then some v else none
  | none => none

/-!
Model of the regular-expression search performed by
LLMService.extract_tasks / extract_tags (src/llm_service.py lines 302 and
336): re.search of the pattern bracket, whitespace-star, quote, dot-star,
quote, whitespace-star, bracket with re.DOTALL.  Because the
whitespace-star of the patterns can only end right before a non-whitespace literal, the
match at a given start is deterministic: skip maximal whitespace, and the
greedy dot-star picks the rightmost closing quote that is followed by
whitespace and a closing bracket.
-/

/-- Python regex whitespace class (ASCII part; the vertical tab and form
feed distinctions never matter here). -/
def pyWs (c : Char) : Bool :=
  c = ' ' || c = '\t' || c = '\n' || c = '\r' || c = Char.ofNat 11 || c = Char.ofNat 12

/-- Given the text after the opening quote, find the greedy closing
position: the largest k such that the char at k is a quote and, after it,
whitespace then a closing bracket.  Returns the total consumed length up
to and including that bracket. -/
def reGreedyClose (cs : List Char) : Nat → Option Nat
  | 0 => none
  | k + 1 =>
    match cs.drop k with
    | '"' :: after =>
      let ws := after.takeWhile pyWs
      match after.dropWhile pyWs with
      | ']' :: _ => some (k + 1 + ws.length + 1)
      | _ => reGreedyClose cs k
    | _ => reGreedyClose cs k

/-- Try to match the array pattern at the start of cs; returns the length
of the matched text. -/
def reArrMatchAt (cs : List Char) : Option Nat :=
  match cs with
  | '[' :: rest =>
    let ws1 := rest.takeWhile pyWs
    match rest.dropWhile pyWs with
    | '"' :: body =>
      match reGreedyClose body body.length with
      | some consumed => some (1 + ws1.length + 1 + consumed)
      | none => none
    | _ => none
  | _ => none

/-- re.search: leftmost start position wins; returns the matched text. -/
def reSearchArr : List Char → Option (List Char)
  | [] => none
  | c :: rest =>
    match reArrMatchAt (c :: rest) with
    | some len => some ((c :: rest).take len)
    | none => reSearchArr rest

/-- The regex search over the response text, as a String function. -/
def reSearchArrStr (s : String) : Option String :=
  (reSearchArr s.toList).map (fun cs => String.mk cs)

namespace LLMService

/-- Shared JSON-array recovery used by extract_tasks and extract_tags
(src/llm_service.py lines 298-313 and 332-347): search for an embedded
array literal first; on a parse failure of the matched text, or with no
match, parse the whole response; any JSONDecodeError is caught and yields
the empty list.  The response argument models the _call_api return value
(None on API failure). -/
def parseArrayResponse (response : Option String) : PyVal :=
  match response with
  | Option.none => PyVal.list []
  | Option.some r =>
    match reSearchArrStr r with
    | Option.some m =>
      match jsonLoads m with
      | Option.some v => v
      | Option.none => PyVal.list []
    | Option.none =>
      match jsonLoads r with
      | Option.some v => v
      | Option.none => PyVal.list []

/-- LLMService.extract_tasks (src/llm_service.py lines 281-313): the
text guard, then the API call (modelled by its response), then the
permissive JSON-array recovery. -/
def extract_tasks (text : String) (response : Option String) : PyVal :=
  if text = "" then PyVal.list []
  else parseArrayResponse response

/-- LLMService.extract_tags (src/llm_service.py lines 315-347):
identical parsing pipeline to extract_tasks. -/
def extract_tags (text : String) (response : Option String) : PyVal :=
  if text = "" then PyVal.list []
  else parseArrayResponse response

end LLMService

/-!
Heuristic (regex-based) tag and task extraction shared by all processors
(BaseProcessor in src/file_processors.py lines 23-56).
-/

/-- Python word character for the hashtag regex (ASCII fragment of the
unicode-aware Python word class; no claim uses non-ASCII tags). -/
def pyWordChar (c : Char) : Bool :=
  c.isAlphanum || c = '_'

/-- re.findall of hash followed by word-chars: left-to-right,
non-overlapping matches, capturing the word part. -/
def hashtagsGo : Nat → List Char → List String
  | 0, _ => []
  | _ + 1, [] => []
  | fuel + 1, c :: rest =>
    if c = '#' then
      let w := rest.takeWhile pyWordChar
      if w.isEmpty then hashtagsGo fuel rest
      else String.mk w :: hashtagsGo fuel (rest.dropWhile pyWordChar)
    else hashtagsGo fuel rest

namespace BaseProcessor

/-- BaseProcessor._extract_tags (src/file_processors.py lines 23-30). -/
def extract_tags (text : String) : List String :=
  if text = "" then []
  else hashtagsGo text.length text.toList

/-- The task-line markers of BaseProcessor._extract_tasks, in source
order (the loop breaks at the first marker that matches). -/
def taskMarkers : List String :=
  ["- [ ]", "* [ ]", "[] ", "TODO:", "TASK:"]

/-- BaseProcessor._extract_tasks (src/file_processors.py lines 32-56):
split into lines, strip each, and collect the text after the first
matching marker. -/
def extract_tasks (text : String) : List String :=
  if text = "" then []
  else
    (splitLinesGo text.toList []).foldl
      (fun acc lnCs =>
        let l := pyStripChars lnCs
        match taskMarkers.find? (fun m => listStarts l m.toList) with
        | Option.some m => acc ++ [String.mk (pyStripChars (l.drop m.length))]
        | Option.none => acc)
      []

end BaseProcessor

/-!
AIChatProcessor (src/file_processors.py lines 530-585).  The outer
try/except returns None on any uncaught exception; the inner try catches
only json.JSONDecodeError, so a TypeError raised while iterating a
non-iterable messages value escapes to the outer handler.
-/

/-- Common shape returned by the processors: the extraction dictionary
with raw text, optional LLM-processed text, tags and tasks. -/
structure ExtractResult where
  raw_text : String
  processed_text : Option String
  tags : List String
  tasks : List String
deriving DecidableEq, Repr

/-- Extract the role/content turns from one message element of the chat
list: only dict elements contribute (lines 549-553 and 558-562). -/
def chatMsgLine (m : PyVal) : String :=
  match m with
  | PyVal.dict kvs =>
    let role := (pyDictGet kvs "role").getD (PyVal.str "")
    let content := (pyDictGet kvs "content").getD (PyVal.str "")
    pyStr role ++ ": " ++ pyStr content ++ "\n\n"
  | _ => ""

/-- The message-extraction phase over the decoded JSON value
(lines 543-562).  An Except.error models a raised TypeError: iterating a
truthy but non-iterable messages value (a number, boolean, or null).
Iterating a string yields its characters and iterating a dict yields its
keys, neither of which is a dict element, so both contribute nothing. -/
def chatExtractText (v : PyVal) : Except String String :=
  match v with
  | PyVal.list msgs => Except.ok (msgs.foldl (fun acc m => acc ++ chatMsgLine m) "")
  | PyVal.dict kvs =>
    let messages := (pyDictGet kvs "messages").getD (PyVal.list [])
    if pyTruthy messages then
      match messages with
      | PyVal.list msgs => Except.ok (msgs.foldl (fun acc m => acc ++ chatMsgLine m) "")
      | PyVal.str _ => Except.ok ""
      | PyVal.dict _ => Except.ok ""
      | _ => Except.error "TypeError: object is not iterable"
    else Except.ok ""
  | _ => Except.ok ""

namespace AIChatProcessor

/-- AIChatProcessor.process (src/file_processors.py lines 533-585).
The argument models the file read; jsonLoads models the json.loads
attempt, whose decode failure takes the flat-text fallback.  A None
result models the outer exception handler returning None. -/
def process (readFile : Call String) : Option ExtractResult :=
  match readFile with
  | Call.raises _ => Option.none
  | Call.returns chat_content =>
    match jsonLoads chat_content with
    | Option.none =>
      Option.some
        { raw_text := chat_content
          processed_text := Option.none
          tags := BaseProcessor.extract_tags chat_content
          tasks := BaseProcessor.extract_tasks chat_content }
    | Option.some v =>
      match chatExtractText v with
      | Except.error _ => Option.none
      | Except.ok extracted_text =>
        Option.some
          { raw_text := extracted_text
            processed_text := Option.none
            tags := BaseProcessor.extract_tags extracted_text
            tasks := BaseProcessor.extract_tasks extracted_text }

end AIChatProcessor

/-!
PDFProcessor.process (src/file_processors.py lines 92-347).

The control flow is translated branch by branch.  Oracles record what
each external call would do.  Key exception routing, mirrored from the
nesting of try/except blocks in the source:
a missing pdf2image import is caught by the except-ImportError at line
233; a missing PyMuPDF import is re-raised at line 176 and caught by the
same handler; any other rendering exception is absorbed by the
except-Exception at line 236; every exception inside the LLM block
(lines 240-286) is caught at line 287; hence the outer handler at line
333 is reachable only from the PyPDF2 read phase, before any temporary
page image exists.
-/

/-- Observable invocations of the fallback machinery. -/
inductive PdfEvent where
  | convertAttempt
  | ocrCall (page : Nat)
  | visionCall (page : Nat)
deriving DecidableEq, Repr

/-- What pdf2image.convert_from_path does: succeed with n in-memory
images, raise an error mentioning poppler, or raise something else. -/
inductive ConvertOutcome where
  | ok (n : Nat)
  | popplerErr
  | otherErr
deriving DecidableEq, Repr

/-- Oracle for the LLMService calls made by PDFProcessor.process.  Each
field models one call site; a (returns none) models the service
returning None after its own retries. -/
structure LLMOracle where
  analyzeImage : Nat → Call (Option String)
  cleanExtraction : Call (Option String)
  summarizeTitle : Call (Option String)
  summarizeClean : Call (Option String)
  summarizeFull : Call (Option String)
  extractTasksCall : Call (List String)
  extractTagsCall : Call (List String)

/-- Environment of one PDFProcessor.process run.  pages is the PyPDF2
per-page extract_text result (raises models an unreadable file);
fitzRender is the PyMuPDF render loop: error k means an exception was
raised after k page images had already been saved to disk. -/
structure PdfEnv where
  pages : Call (List String)
  llm : Option LLMOracle
  pdf2imageAvailable : Bool
  convert : ConvertOutcome
  fitzAvailable : Bool
  fitzRender : Except Nat Nat
  ocr : Nat → Call String

/-- State accumulated by the per-page OCR/vision loop
(lines 197-228). -/
structure PageAcc where
  combined : String
  ocrAcc : String
  events : List PdfEvent

/-- One iteration of the per-page loop: OCR the page image (keeping only
results longer than 50 characters), then always submit the image to the
vision model; either call may raise and is caught per page. -/
def pdfPageStep (llm : LLMOracle) (ocr : Nat → Call String) (acc : PageAcc)
    (i : Nat) : PageAcc :=
  let acc1 : PageAcc := { acc with events := acc.events ++ [PdfEvent.ocrCall i] }
  let acc2 : PageAcc :=
    match ocr i with
    | Call.raises _ => acc1
    | Call.returns ocr_result =>
      if ocr_result ≠ "" ∧ 50 < ocr_result.length then
        { acc1 with
            combined := acc1.combined ++ "Page " ++ toString (i + 1) ++ ":\n" ++
              ocr_result ++ "\n\n"
            ocrAcc := acc1.ocrAcc ++ ocr_result ++ "\n\n" }
      else acc1
  let acc3 : PageAcc := { acc2 with events := acc2.events ++ [PdfEvent.visionCall i] }
  match llm.analyzeImage i with
  | Call.raises _ => acc3
  | Call.returns Option.none => acc3
  | Call.returns (Option.some image_analysis) =>
    if image_analysis ≠ "" then
      let line := "Page " ++ toString (i + 1) ++ " (analyzed by Claude):\n" ++
        image_analysis ++ "\n\n"
      if acc3.combined = "" then { acc3 with combined := line }
      else { acc3 with combined := acc3.combined ++ line }
    else acc3

/-- Result of the image-rendering fallback section (lines 132-237). -/
structure FallbackOut where
  extracted : String
  ocr_text : String
  events : List PdfEvent
  temp_images : List Nat
  images_extracted : Bool

/-- The fallback section when no rendering is attempted or it produced
nothing observable. -/
def fallbackIdle (extracted0 : String) (evs : List PdfEvent)
    (temp : List Nat) (imgs : Bool) : FallbackOut :=
  { extracted := extracted0, ocr_text := "", events := evs,
    temp_images := temp, images_extracted := imgs }

/-- The image-rendering fallback (lines 132-237).  Note the source slip:
after a successful convert_from_path, images_extracted is already True,
so the block at lines 182-195 that would save the rendered images is
skipped and page_images stays empty; only the PyMuPDF path ever fills
page_images. -/
def pdfImageFallback (env : PdfEnv) (llm : LLMOracle) (extracted0 : String) :
    FallbackOut :=
  if ¬ env.pdf2imageAvailable then
    fallbackIdle extracted0 [] [] false
  else
    match env.convert with
    | ConvertOutcome.ok _ =>
      fallbackIdle extracted0 [PdfEvent.convertAttempt] [] true
    | ConvertOutcome.otherErr =>
      fallbackIdle extracted0 [PdfEvent.convertAttempt] [] false
    | ConvertOutcome.popplerErr =>
      if ¬ env.fitzAvailable then
        fallbackIdle extracted0 [PdfEvent.convertAttempt] [] false
      else
        match env.fitzRender with
        | Except.error k =>
          fallbackIdle extracted0 [PdfEvent.convertAttempt] (List.range k) false
        | Except.ok n =>
          let page_images := List.range n
          let acc := page_images.foldl (pdfPageStep llm env.ocr)
            { combined := "", ocrAcc := "", events := [PdfEvent.convertAttempt] }
          { extracted := if acc.combined ≠ "" then acc.combined else extracted0
            ocr_text := acc.ocrAcc
            events := acc.events
            temp_images := page_images
            images_extracted := true }

/-- Result of the LLM-processing section (lines 239-298): the raw_text
local if it was assigned, the processed text, tags and tasks. -/
structure LlmSectionOut where
  raw_opt : Option String
  processed_text : Option String
  tags : List String
  tasks : List String

/-- The except-handler at lines 287-291: any exception inside the LLM
block yields this degraded outcome; an already-assigned raw_text local
survives. -/
def llmFailOut (raw_opt : Option String) (msg : String) (extracted : String) :
    LlmSectionOut :=
  { raw_opt := raw_opt
    processed_text := Option.some ("LLM processing failed: " ++ msg ++
      ". PDF contains " ++
      (if extracted ≠ "" then "text content"
       else "no extractable text and may be image-based"))
    tags := ["pdf", "scan"]
    tasks := [] }

/-- The task/tag extraction tail of the LLM block (lines 279-286). -/
def llmTasksTags (llm : LLMOracle) (raw_opt processed : Option String)
    (extracted : String) : LlmSectionOut :=
  match llm.extractTasksCall with
  | Call.raises m => llmFailOut raw_opt m extracted
  | Call.returns tasks =>
    match llm.extractTagsCall with
    | Call.raises m => llmFailOut raw_opt m extracted
    | Call.returns tags =>
      { raw_opt := raw_opt, processed_text := processed, tags := tags,
        tasks := tasks }

/-- Lines 274-277: summarize full_text when the clean extraction was
falsy.  A None return raises a TypeError at line 277 when the summary is
sliced for logging. -/
def pdfSummarizeFallback (llm : LLMOracle) (extracted : String) :
    LlmSectionOut :=
  match llm.summarizeFull with
  | Call.raises m => llmFailOut Option.none m extracted
  | Call.returns Option.none =>
    llmFailOut Option.none "TypeError: NoneType object is not subscriptable"
      extracted
  | Call.returns (Option.some p) =>
    llmTasksTags llm Option.none (Option.some p) extracted

/-- The LLM-processing section (lines 240-291). -/
def pdfLlmSection (llm : LLMOracle) (extracted ocr_text : String) :
    LlmSectionOut :=
  if extracted = "" ∧ ocr_text = "" then
    match llm.summarizeTitle with
    | Call.raises m => llmFailOut Option.none m extracted
    | Call.returns Option.none =>
      llmFailOut Option.none "TypeError: NoneType object is not subscriptable"
        extracted
    | Call.returns (Option.some p) =>
      llmTasksTags llm Option.none (Option.some p) extracted
  else
    let _full_text :=
      if ocr_text ≠ "" ∧ extracted ≠ "" ∧ pyContains "Page" extracted then
        extracted
      else if ocr_text ≠ "" ∧ extracted ≠ "" then
        "Text extracted directly from PDF:\n" ++ extracted ++
          "\n\nText extracted via OCR:\n" ++ ocr_text
      else if extracted ≠ "" then extracted
      else ocr_text
    match llm.cleanExtraction with
    | Call.raises m => llmFailOut Option.none m extracted
    | Call.returns (Option.some raw_extraction) =>
      if raw_extraction ≠ "" then
        match llm.summarizeClean with
        | Call.raises m => llmFailOut (Option.some raw_extraction) m extracted
        | Call.returns Option.none =>
          llmFailOut (Option.some raw_extraction)
            "TypeError: NoneType object is not subscriptable" extracted
        | Call.returns (Option.some p) =>
          llmTasksTags llm (Option.some raw_extraction) (Option.some p) extracted
      else pdfSummarizeFallback llm extracted
    | Call.returns Option.none => pdfSummarizeFallback llm extracted

/-- Direct per-page text concatenation (lines 109-114): truthy page
texts joined with blank lines. -/
def pdfDirectText (pages : List String) : String :=
  pages.foldl
    (fun acc page_text =>
      if page_text ≠ "" then acc ++ page_text ++ "\n\n" else acc)
    ""

/-- Final raw_text resolution when the LLM block did not assign it
(lines 312-317). -/
def pdfResolveRaw (extracted ocr_text : String) : String :=
  if extracted ≠ "" then extracted
  else if ocr_text ≠ "" then "Text extracted via OCR:\n" ++ ocr_text
  else "No text could be extracted - may be image-based PDF"

/-- The cleanup loop at lines 300-306: remove each path in temp_images
from the set of files on disk. -/
def osCleanup (fs temp : List Nat) : List Nat :=
  temp.foldl (fun acc p => acc.erase p) fs

/-- The dictionary returned by PDFProcessor.process, together with the
observables the claims are about: the fallback events, the temporary
page images created, and those still on disk when the method returns. -/
structure PdfResult where
  raw_text : String
  processed_text : Option String
  tags : List String
  tasks : List String
  events : List PdfEvent
  temp_created : List Nat
  temp_remaining : List Nat
  pagesCount : Nat
  might_be_handwritten : Bool
  ocr_attempted : Bool
  ocr_success : Bool
  isError : Bool

namespace PDFProcessor

/-- PDFProcessor.process (src/file_processors.py lines 95-347). -/
def process (env : PdfEnv) : PdfResult :=
  match env.pages with
  | Call.raises msg =>
    { raw_text := "Error processing PDF: " ++ msg
      processed_text := Option.some
        ("This PDF could not be processed due to an error: " ++ msg)
      tags := ["error", "pdf"]
      tasks := []
      events := []
      temp_created := []
      temp_remaining := []
      pagesCount := 0
      might_be_handwritten := false
      ocr_attempted := false
      ocr_success := false
      isError := true }
  | Call.returns pages =>
    let extracted0 := pdfDirectText pages
    let words := pyWordCount extracted0
    let might_be_handwritten : Bool := decide (words < 20 * max 1 pages.length)
    let fb : FallbackOut :=
      match env.llm with
      | Option.some llm =>
        if extracted0 = "" ∨ might_be_handwritten = true then
          pdfImageFallback env llm extracted0
        else fallbackIdle extracted0 [] [] false
      | Option.none => fallbackIdle extracted0 [] [] false
    let main : LlmSectionOut :=
      match env.llm with
      | Option.some llm => pdfLlmSection llm fb.extracted fb.ocr_text
      | Option.none =>
        let tasks := BaseProcessor.extract_tasks fb.extracted
        let tags0 := BaseProcessor.extract_tags fb.extracted
        let tags :=
          if tags0 = [] ∧ fb.extracted = "" then ["pdf", "scan"] else tags0
        { raw_opt := Option.none, processed_text := Option.none,
          tags := tags, tasks := tasks }
    let raw_text :=
      match main.raw_opt with
      | Option.some r => r
      | Option.none => pdfResolveRaw fb.extracted fb.ocr_text
    { raw_text := raw_text
      processed_text := main.processed_text
      tags := main.tags
      tasks := main.tasks
      events := fb.events
      temp_created := fb.temp_images
      temp_remaining := osCleanup fb.temp_images fb.temp_images
      pagesCount := pages.length
      might_be_handwritten := might_be_handwritten
      ocr_attempted := fb.images_extracted
      ocr_success := decide (fb.ocr_text ≠ "")
      isError := false }

end PDFProcessor

/-!
DatabaseManager (src/database_manager.py).  The sqlite store is modelled
as in-memory tables.  The schema (lines 20-83): files.file_path is
UNIQUE, tags.name is UNIQUE, content_tags has a composite primary key;
files.file_hash carries no uniqueness constraint.  Row ids are assigned
as successive positive integers, mirroring AUTOINCREMENT.
-/

structure FileRow where
  id : Nat
  file_path : String
  file_type : String
  file_hash : String
deriving DecidableEq, Repr

structure ContentRow where
  id : Nat
  file_id : Nat
  content_type : String
  content_text : String
  processed_text : Option String
deriving DecidableEq, Repr

structure TagRow where
  id : Nat
  name : String
deriving DecidableEq, Repr

structure TaskRow where
  id : Nat
  content_id : Nat
  task_text : String
  completed : Bool
  due_date : Option String
  created_date : String
deriving DecidableEq, Repr

structure DigestRow where
  id : Nat
  digest_type : String
  start_date : String
  end_date : String
  content : String
  created_date : String
deriving DecidableEq, Repr

structure DB where
  files : List FileRow
  contents : List ContentRow
  tags : List TagRow
  content_tags : List (Nat × Nat)
  tasks : List TaskRow
  digests : List DigestRow
deriving DecidableEq, Repr

def DB.empty : DB :=
  { files := [], contents := [], tags := [], content_tags := [],
    tasks := [], digests := [] }

namespace DatabaseManager

/-- DatabaseManager.add_file (lines 88-111): INSERT OR IGNORE keyed by
the UNIQUE file_path column.  Returns the stored id on a real insert and
none on an ignored duplicate (modelling the cursor yielding no fresh
rowid). -/
def add_file (db : DB) (file_path file_type file_hash : String) :
    DB × Option Nat :=
  if db.files.any (fun f => f.file_path = file_path) then (db, Option.none)
  else
    let fid := db.files.length + 1
    ({ db with files := db.files ++
        [{ id := fid, file_path := file_path, file_type := file_type,
           file_hash := file_hash }] },
     Option.some fid)

/-- DatabaseManager.add_content (lines 113-135): a plain INSERT; every
call appends a new content row. -/
def add_content (db : DB) (file_id : Nat) (content_type content_text : String)
    (processed_text : Option String) : DB × Option Nat :=
  let cid := db.contents.length + 1
  ({ db with contents := db.contents ++
      [{ id := cid, file_id := file_id, content_type := content_type,
         content_text := content_text, processed_text := processed_text }] },
   Option.some cid)

/-- One iteration of the add_tags loop (lines 143-155): INSERT OR IGNORE
the tag name, look up its id, and INSERT OR IGNORE the association. -/
def addOneTag (db : DB) (content_id : Nat) (tag : String) : DB :=
  let db1 :=
    if db.tags.any (fun t => t.name = tag) then db
    else { db with tags := db.tags ++
        [{ id := db.tags.length + 1, name := tag }] }
  match db1.tags.find? (fun t => t.name = tag) with
  | Option.none => db1
  | Option.some trow =>
    if db1.content_tags.any (fun p => p = (content_id, trow.id)) then db1
    else { db1 with content_tags := db1.content_tags ++ [(content_id, trow.id)] }

/-- DatabaseManager.add_tags (lines 137-162). -/
def add_tags (db : DB) (content_id : Nat) (tags : List String) : DB :=
  tags.foldl (fun d tag => addOneTag d content_id tag) db

/-- DatabaseManager.add_task (lines 164-186). -/
def add_task (db : DB) (content_id : Nat) (task_text : String)
    (due_date : Option String) (now : String) : DB × Option Nat :=
  let tid := db.tasks.length + 1
  ({ db with tasks := db.tasks ++
      [{ id := tid, content_id := content_id, task_text := task_text,
         completed := false, due_date := due_date, created_date := now }] },
   Option.some tid)

/-- DatabaseManager.save_digest (lines 188-210). -/
def save_digest (db : DB) (digest_type content start_date end_date now : String) :
    DB × Option Nat :=
  let did := db.digests.length + 1
  ({ db with digests := db.digests ++
      [{ id := did, digest_type := digest_type, start_date := start_date,
         end_date := end_date, content := content, created_date := now }] },
   Option.some did)

/-- SQLite string comparison (BINARY collation: code-point order), used
for both the due-date and created-date sort keys. -/
def sqliteStrLt (a b : String) : Bool :=
  decide (a < b)

/-- The ORDER BY of get_tasks after the NULLS LAST keyword is stripped
(lines 282-286): completed ASC, due_date ASC, created_date DESC.  Under
SQLite, NULL sorts before every non-NULL value in ASC order, so tasks
without a due date come first within a completion group. -/
def taskLe (a b : TaskRow) : Bool :=
  if a.completed ≠ b.completed then a.completed = false
  else
    match a.due_date, b.due_date with
    | Option.none, Option.none =>
      sqliteStrLt b.created_date a.created_date || a.created_date = b.created_date
    | Option.none, Option.some _ => true
    | Option.some _, Option.none => false
    | Option.some x, Option.some y =>
      if x ≠ y then sqliteStrLt x y
      else sqliteStrLt b.created_date a.created_date || a.created_date = b.created_date

/-- Insertion sort used to realise the ORDER BY (any correct sort; the
rows compared in the claims have pairwise distinct keys). -/
def sqlInsert (x : TaskRow) : List TaskRow → List TaskRow
  | [] => [x]
  | y :: ys => if taskLe x y then x :: y :: ys else y :: sqlInsert x ys

def sqlSortTasks : List TaskRow → List TaskRow
  | [] => []
  | x :: xs => sqlInsert x (sqlSortTasks xs)

/-- DatabaseManager.get_tasks (lines 253-303): join tasks with their
content and file rows, apply the optional completion filter, and sort by
the ORDER BY above. -/
def get_tasks (db : DB) (completed : Option Bool) : List TaskRow :=
  let joined := db.tasks.filter (fun t =>
    db.contents.any (fun c =>
      c.id = t.content_id && db.files.any (fun f => f.id = c.file_id)))
  let filtered :=
    match completed with
    | Option.none => joined
    | Option.some b => joined.filter (fun t => t.completed = b)
  sqlSortTasks filtered

/-- DatabaseManager.get_latest_digest (lines 305-323): the row of the
requested type with the greatest created_date (ORDER BY created_date
DESC LIMIT 1). -/
def get_latest_digest (db : DB) (digest_type : String) : Option DigestRow :=
  (db.digests.filter (fun d => d.digest_type = digest_type)).foldl
    (fun best d =>
      match best with
      | Option.none => Option.some d
      | Option.some b =>
        if sqliteStrLt b.created_date d.created_date then Option.some d
        else Option.some b)
    Option.none

end DatabaseManager

/-!
The simple per-type processors and the per-file processing entry point
(src/file_processors.py lines 59-89 and 350-378; src/folder_monitor.py
lines 101-172).
-/

namespace DocumentProcessor

/-- DocumentProcessor.process (lines 353-378): read the file as utf-8
text; any exception is caught and the method returns None. -/
def process (readFile : Call String) : Option ExtractResult :=
  match readFile with
  | Call.raises _ => Option.none
  | Call.returns extracted_text =>
    Option.some
      { raw_text := extracted_text
        processed_text := Option.none
        tags := BaseProcessor.extract_tags extracted_text
        tasks := BaseProcessor.extract_tasks extracted_text }

end DocumentProcessor

namespace ImageProcessor

/-- ImageProcessor.process (lines 62-89): open the image and run OCR;
any exception is caught and the method returns None. -/
def process (ocrRun : Call String) : Option ExtractResult :=
  match ocrRun with
  | Call.raises _ => Option.none
  | Call.returns extracted_text =>
    Option.some
      { raw_text := extracted_text
        processed_text := Option.none
        tags := BaseProcessor.extract_tags extracted_text
        tasks := BaseProcessor.extract_tasks extracted_text }

end ImageProcessor

namespace NotesProcessor

/-- NotesProcessor.process_file (src/folder_monitor.py lines 101-172),
run with a database configured.  processorRun models the
processor.process call (raises covers the BaseProcessor
NotImplementedError case; returns none is a processor that swallowed its
own exception); hashRead models re-reading the file for its md5.  The
Except layer makes exception propagation expressible: the try/except of the
source at lines 114-172 catches everything, so no branch below
produces Except.error. -/
def process_file (db : DB) (file_path file_type : String)
    (processorRun : Call (Option ExtractResult)) (hashRead : Call String)
    (now : String) : Except String (Bool × DB) :=
  match processorRun with
  | Call.raises _ => Except.ok (false, db)
  | Call.returns Option.none => Except.ok (false, db)
  | Call.returns (Option.some result) =>
    match hashRead with
    | Call.raises _ => Except.ok (false, db)
    | Call.returns file_hash =>
      let step1 := DatabaseManager.add_file db file_path file_type file_hash
      match step1.2 with
      | Option.none => Except.ok (true, step1.1)
      | Option.some file_id =>
        let raw_text :=
          if result.raw_text = "" ∧ file_type = "pdf" then
            "No text could be extracted - this appears to be an image-based PDF"
          else result.raw_text
        let step2 := DatabaseManager.add_content step1.1 file_id "text" raw_text
          result.processed_text
        match step2.2 with
        | Option.none => Except.ok (true, step2.1)
        | Option.some content_id =>
          let db3 :=
            if result.tags ≠ [] then
              DatabaseManager.add_tags step2.1 content_id result.tags
            else step2.1
          let db4 :=
            if result.tasks ≠ [] then
              result.tasks.foldl
                (fun d task_text =>
                  (DatabaseManager.add_task d content_id task_text Option.none
                    now).1)
                db3
            else db3
          Except.ok (true, db4)

end NotesProcessor

/-!
DigestGenerator (src/digest_generator.py).  Dates reach these functions
already formatted as strings; content rows are projected to the tag list
the Top Tags appendix needs.
-/

/-- Projection of one stored content row as the digest builder sees it. -/
structure ContentMeta where
  tags : List String
deriving DecidableEq, Repr

/-- Tag frequency map in Python dict insertion order
(src/digest_generator.py lines 109-111). -/
def tagCounts (l : List String) : List (String × Nat) :=
  l.foldl
    (fun acc tag =>
      if acc.any (fun p => p.1 = tag) then
        acc.map (fun p => if p.1 = tag then (p.1, p.2 + 1) else p)
      else acc ++ [(tag, 1)])
    []

/-- Stable sort by count descending, as Python sorted with a reverse
count key (line 113): ties keep insertion order, realised by sorting
index-tagged pairs. -/
def tagCountInsert (x : Nat × String × Nat) :
    List (Nat × String × Nat) → List (Nat × String × Nat)
  | [] => [x]
  | y :: ys =>
    if x.2.2 > y.2.2 ∨ (x.2.2 = y.2.2 ∧ x.1 ≤ y.1) then x :: y :: ys
    else y :: tagCountInsert x ys

def sortTagCounts (l : List (String × Nat)) : List (String × Nat) :=
  (l.enum.foldr tagCountInsert []).map (fun p => p.2)

/-- The Top Tags appendix lines (lines 115-118), truncated to the given
limit. -/
def topTagsLines (contents : List ContentMeta) (limit : Nat) : List String :=
  let all_tags := contents.foldl (fun acc c => acc ++ c.tags) []
  let sorted := sortTagCounts (tagCounts all_tags)
  (sorted.take limit).map
    (fun p => "- #" ++ p.1 ++ " (" ++ toString p.2 ++ ")\n")

namespace DigestGenerator

/-- DigestGenerator.generate_weekly_digest (src/digest_generator.py
lines 21-130).  periodContents and allContents model the two store
queries; llmDigest models LLMService.generate_weekly_digest, which
returns None when the API call fails after retries.  The result is the
returned dictionary (digest id and formatted content) or None, paired
with the updated store. -/
def generate_weekly_digest (db : DB)
    (periodContents allContents : List ContentMeta) (llmDigest : Option String)
    (start_date end_date now : String) : Option (Option Nat × String) × DB :=
  let content_items :=
    if periodContents.isEmpty then allContents.take 50 else periodContents
  if content_items.isEmpty then (Option.none, db)
  else
    match llmDigest with
    | Option.none => (Option.none, db)
    | Option.some digest_content =>
      if digest_content = "" then (Option.none, db)
      else
        let saved := DatabaseManager.save_digest db "weekly" digest_content
          start_date end_date now
        let formatted := "# Weekly Digest\n\n**Period:** " ++ start_date ++
          " to " ++ end_date ++ "\n\n" ++ digest_content
        let tagLines := topTagsLines content_items 10
        let formatted2 :=
          if tagLines.isEmpty then formatted
          else formatted ++ "\n\n## Top Tags\n\n" ++ String.join tagLines
        (Option.some (saved.2, formatted2), saved.1)

/-- The weekly-digest collection loop of generate_monthly_digest
(src/digest_generator.py lines 152-170): one iteration per 7-day slot of
the month, each querying get_latest_digest with no date filter, so every
iteration fetches the same globally-latest weekly digest. -/
def collectGo (db : DB) (days : Nat) : Nat → Nat → List DigestRow
  | 0, _ => []
  | fuel + 1, current_start =>
    if current_start ≤ days then
      (match DatabaseManager.get_latest_digest db "weekly" with
       | Option.some d => [d]
       | Option.none => []) ++
      collectGo db days fuel (min (current_start + 6) days + 1)
    else []

def collectWeeklyDigests (db : DB) (days : Nat) : List DigestRow :=
  collectGo db days (days + 1) 1

/-- The literal fallback notice of line 176. -/
def insufficientTrendNotice : String :=
  "Insufficient data to analyze trends for this month."

/-- The trend step of generate_monthly_digest (lines 172-176): attempt
LLM trend analysis only when more than one digest was collected.
llmTrend models the analyze_trends return value.  (In the source,
analyze_trends would itself fail on the tuple rows the store returns;
the claims are settled at this branch, before that call.) -/
def monthlyTrendSection (weekly_digests : List DigestRow) (llmTrend : String) :
    String :=
  if weekly_digests.length > 1 then llmTrend else insufficientTrendNotice

/-- DigestGenerator.generate_task_list (src/digest_generator.py lines
309-396), reduced to the order in which tasks are rendered: the sorted
query result split into active tasks first, then (when requested)
completed tasks. -/
def generate_task_list (db : DB) (include_completed : Bool) : List TaskRow :=
  let tasks := DatabaseManager.get_tasks db
    (if include_completed then Option.none else Option.some false)
  let active_tasks := tasks.filter (fun t => !t.completed)
  let completed_tasks := tasks.filter (fun t => t.completed)
  active_tasks ++ (if include_completed then completed_tasks else [])

end DigestGenerator

/-!
Concrete inputs used by the closed theorems below.
-/

/-- Scalar check used to state the amended chat-processor claim. -/
def pyScalar : PyVal → Bool
  | PyVal.str _ => true
  | PyVal.num _ => true
  | PyVal.flt _ => true
  | PyVal.bool _ => true
  | PyVal.null => true
  | PyVal.list _ => false
  | PyVal.dict _ => false

/-- An LLM oracle on which every call succeeds. -/
def benignLLM : LLMOracle :=
  { analyzeImage := fun _ => Call.returns (Option.some "VISION")
    cleanExtraction := Call.returns (Option.some "CLEANED")
    summarizeTitle := Call.returns (Option.some "TITLESUM")
    summarizeClean := Call.returns (Option.some "SUM")
    summarizeFull := Call.returns (Option.some "SUMFULL")
    extractTasksCall := Call.returns []
    extractTagsCall := Call.returns [] }

/-- A page whose direct text layer holds exactly 20 words. -/
def goodPage : String :=
  "w w w w w w w w w w w w w w w w w w w w"

/-- A one-page PDF with a good text layer, processed with an LLM
configured. -/
def envC1 : PdfEnv :=
  { pages := Call.returns [goodPage]
    llm := Option.some benignLLM
    pdf2imageAvailable := true
    convert := ConvertOutcome.ok 1
    fitzAvailable := true
    fitzRender := Except.ok 1
    ocr := fun _ => Call.returns "" }

/-- A textless PDF for which pdf2image successfully renders 3 pages. -/
def envC2 : PdfEnv :=
  { pages := Call.returns [""]
    llm := Option.some benignLLM
    pdf2imageAvailable := true
    convert := ConvertOutcome.ok 3
    fitzAvailable := true
    fitzRender := Except.ok 3
    ocr := fun _ => Call.returns "OCRTEXT" }

/-- The same textless PDF when pdf2image hits a poppler error and the
PyMuPDF backend renders the 3 pages instead. -/
def envFitz : PdfEnv :=
  { pages := Call.returns [""]
    llm := Option.some benignLLM
    pdf2imageAvailable := true
    convert := ConvertOutcome.popplerErr
    fitzAvailable := true
    fitzRender := Except.ok 3
    ocr := fun _ => Call.returns "OCRTEXT" }

/-- A JSON object whose messages field is a truthy non-iterable. -/
def chatCexStr : String := "\x7b\"messages\": 5\x7d"

/-- One stored content record carrying one tag. -/
def oneNoteContent : ContentMeta := { tags := ["work"] }

/-- A weekly digest dated inside February 2025. -/
def febWeekly : DigestRow :=
  { id := 1, digest_type := "weekly", start_date := "2025-02-01T00:00:00",
    end_date := "2025-02-07T23:59:59", content := "## Summary\nA quiet week.",
    created_date := "2025-02-08T00:00:00" }

/-- A store holding exactly one weekly digest. -/
def dbOneWeekly : DB :=
  { DB.empty with digests := [febWeekly] }

/-- The three tasks of the task-ordering scenario. -/
def taskNullDue : TaskRow :=
  { id := 1, content_id := 1, task_text := "task with no due date",
    completed := false, due_date := Option.none,
    created_date := "2025-01-10T00:00:00" }

def taskWithDue : TaskRow :=
  { id := 2, content_id := 1, task_text := "task due 2025-01-01",
    completed := false, due_date := Option.some "2025-01-01",
    created_date := "2025-01-10T00:00:00" }

def taskDone : TaskRow :=
  { id := 3, content_id := 1, task_text := "finished task",
    completed := true, due_date := Option.none,
    created_date := "2025-01-10T00:00:00" }

/-- A store holding the three tasks with their joined content and file
rows. -/
def dbTasks : DB :=
  { files := [{ id := 1, file_path := "n.txt", file_type := "document",
                file_hash := "h" }]
    contents := [{ id := 1, file_id := 1, content_type := "text",
                   content_text := "", processed_text := Option.none }]
    tags := [], content_tags := [], digests := []
    tasks := [taskNullDue, taskWithDue, taskDone] }

/-- A store already holding the tag named work. -/
def dbWithTag : DB :=
  { DB.empty with tags := [{ id := 1, name := "work" }] }

/-!
Theorems.  Helper lemmas come first; each claim has one main theorem,
preceded by a doc comment naming the claim.
-/

/-- Removing every created temporary file removes all of them, duplicates
included. -/
theorem osCleanup_self (l : List Nat) : osCleanup l l = [] := by
  suffices h : ∀ t fs : List Nat, fs = t → osCleanup fs t = [] from h l l rfl
  intro t
  induction t with
  | nil =>
    intro fs h
    simp [osCleanup, h]
  | cons a t ih =>
    intro fs h
    subst h
    show osCleanup (a :: t) (a :: t) = []
    unfold osCleanup
    simp only [List.foldl_cons, List.erase_cons_head]
    exact ih t rfl

/-- The task/tag tail of the LLM block never changes the raw_text
local. -/
theorem llmTasksTags_raw_opt (llm : LLMOracle) (r p : Option String)
    (e : String) : (llmTasksTags llm r p e).raw_opt = r := by
  unfold llmTasksTags
  cases llm.extractTasksCall with
  | raises m => rfl
  | returns ts =>
    cases llm.extractTagsCall with
    | raises m => rfl
    | returns gs => rfl

/-- The summarize-full fallback never assigns the raw_text local. -/
theorem pdfSummarizeFallback_raw_opt (llm : LLMOracle) (e : String) :
    (pdfSummarizeFallback llm e).raw_opt = Option.none := by
  unfold pdfSummarizeFallback
  cases llm.summarizeFull with
  | raises m => rfl
  | returns v =>
    cases v with
    | none => rfl
    | some p => exact llmTasksTags_raw_opt llm Option.none (Option.some p) e

/-- With non-empty extracted text, the LLM section assigns raw_text
exactly when the clean-extraction call returns truthy text, and then to
that text. -/
theorem pdfLlmSection_raw_opt (llm : LLMOracle) (extracted ocr_text : String)
    (hne : ¬ extracted = "") :
    (pdfLlmSection llm extracted ocr_text).raw_opt =
      (match llm.cleanExtraction with
       | Call.returns (Option.some s) =>
         if s = "" then Option.none else Option.some s
       | _ => Option.none) := by
  unfold pdfLlmSection
  rw [if_neg (by simp [hne])]
  cases llm.cleanExtraction with
  | raises m => rfl
  | returns v =>
    cases v with
    | none => exact pdfSummarizeFallback_raw_opt llm extracted
    | some s =>
      by_cases hs : s = ""
      · simp only [hs, ite_true, if_neg (by simp : ¬ ("" : String) ≠ "")]
        exact pdfSummarizeFallback_raw_opt llm extracted
      · simp only [if_pos hs, if_neg hs]
        cases llm.summarizeClean with
        | raises m => rfl
        | returns v2 =>
          cases v2 with
          | none => rfl
          | some p => exact llmTasksTags_raw_opt llm (Option.some s) (Option.some p) extracted

/-- A second insert of an already-present file path is ignored. -/
theorem add_file_dup (db : DB) (p t h : String)
    (hp : db.files.any (fun f => f.file_path = p) = true) :
    DatabaseManager.add_file db p t h = (db, Option.none) := by
  unfold DatabaseManager.add_file
  rw [if_pos hp]

/-- A tag name present in the table is found by the id lookup. -/
theorem find?_mem_name (l : List TagRow) (tg : String)
    (h : ∃ r ∈ l, r.name = tg) :
    ∃ r, l.find? (fun x => x.name = tg) = Option.some r := by
  induction l with
  | nil =>
    obtain ⟨r, hr, _⟩ := h
    cases hr
  | cons a l ih =>
    by_cases ha : a.name = tg
    · exact ⟨a, by simp [List.find?, ha]⟩
    · obtain ⟨r, hr, hname⟩ := h
      rcases List.mem_cons.mp hr with rfl | hmem
      · exact absurd hname ha
      · obtain ⟨r2, hr2⟩ := ih ⟨r, hmem, hname⟩
        exact ⟨r2, by simp [List.find?, ha, hr2]⟩

/-- On the PyMuPDF rendering path the per-page loop really does OCR and
vision-submit every rendered page (contrast with the pdf2image path of
claim C2). -/
theorem pymupdf_path_processes_each_page :
    (PDFProcessor.process envFitz).events =
      [PdfEvent.convertAttempt, PdfEvent.ocrCall 0, PdfEvent.visionCall 0,
       PdfEvent.ocrCall 1, PdfEvent.visionCall 1,
       PdfEvent.ocrCall 2, PdfEvent.visionCall 2] ∧
    (PDFProcessor.process envFitz).temp_created = [0, 1, 2] := by
  refine ⟨by decide, by decide⟩

/-- Claim C1 (counterexample): a one-page PDF whose text layer holds 20
words satisfies the antecedent (non-empty direct text, words_per_page at
least 20) and indeed triggers no fallback event, but with an LLM
configured whose clean-extraction call returns text, the returned
raw_text is that cleaned text, not the direct per-page concatenation. -/
theorem C1_counterexample :
    pdfDirectText [goodPage] ≠ "" ∧
    20 * max 1 ([goodPage].length) ≤ pyWordCount (pdfDirectText [goodPage]) ∧
    (PDFProcessor.process envC1).events = [] ∧
    (PDFProcessor.process envC1).raw_text = "CLEANED" ∧
    (PDFProcessor.process envC1).raw_text ≠ pdfDirectText [goodPage] := by
  refine ⟨by decide, by decide, rfl, rfl, by decide⟩

/-- Claim C1 (amended): for every PDF whose direct extraction yields
non-empty text with words_per_page at least 20, no image-rendering, OCR
or vision call is made and no temporary page image is created; the
returned raw_text equals the per-page concatenation, except that when an
LLM service is configured and its clean-extraction call returns
non-empty text, raw_text is that cleaned text instead. -/
theorem C1_amended (env : PdfEnv) (pages : List String)
    (hp : env.pages = Call.returns pages)
    (hne : pdfDirectText pages ≠ "")
    (hw : 20 * max 1 pages.length ≤ pyWordCount (pdfDirectText pages)) :
    (PDFProcessor.process env).events = [] ∧
    (PDFProcessor.process env).temp_created = [] ∧
    (PDFProcessor.process env).ocr_attempted = false ∧
    (PDFProcessor.process env).raw_text =
      (match env.llm with
       | Option.none => pdfDirectText pages
       | Option.some llm =>
         match llm.cleanExtraction with
         | Call.returns (Option.some s) =>
           if s = "" then pdfDirectText pages else s
         | _ => pdfDirectText pages) := by
  obtain ⟨pgs, llmO, p2i, conv, fA, fR, ocrF⟩ := env
  have hp2 : pgs = Call.returns pages := hp
  subst hp2
  have hmw : (decide (pyWordCount (pdfDirectText pages) <
      20 * max 1 pages.length)) = false := by
    simp only [decide_eq_false_iff_not, not_lt]
    exact hw
  have hcond : ¬ (pdfDirectText pages = "" ∨
      (decide (pyWordCount (pdfDirectText pages) <
        20 * max 1 pages.length)) = true) := by
    rw [hmw]
    simp [hne]
  cases llmO with
  | none =>
    refine ⟨rfl, rfl, rfl, ?_⟩
    show pdfResolveRaw (pdfDirectText pages) "" = pdfDirectText pages
    simp [pdfResolveRaw, hne]
  | some llm =>
    simp only [PDFProcessor.process, if_neg hcond]
    refine ⟨rfl, rfl, rfl, ?_⟩
    show (match (pdfLlmSection llm
        (fallbackIdle (pdfDirectText pages) [] [] false).extracted
        (fallbackIdle (pdfDirectText pages) [] [] false).ocr_text).raw_opt with
      | Option.some r => r
      | Option.none => pdfResolveRaw
          (fallbackIdle (pdfDirectText pages) [] [] false).extracted
          (fallbackIdle (pdfDirectText pages) [] [] false).ocr_text) = _
    rw [show (fallbackIdle (pdfDirectText pages) [] [] false).extracted
          = pdfDirectText pages from rfl,
        show (fallbackIdle (pdfDirectText pages) [] [] false).ocr_text
          = "" from rfl]
    rw [pdfLlmSection_raw_opt llm (pdfDirectText pages) "" hne]
    cases hce : llm.cleanExtraction with
    | raises m => simp [pdfResolveRaw, hne]
    | returns v =>
      cases v with
      | none => simp [pdfResolveRaw, hne]
      | some s =>
        by_cases hs : s = ""
        · simp [hs, pdfResolveRaw, hne]
        · simp [hs, pdfResolveRaw, hne]

/-- Claim C1 (witness): the amended theorem applied to the concrete
one-page PDF with a benign LLM oracle. -/
theorem C1_amended_witness :
    (PDFProcessor.process envC1).events = [] ∧
    (PDFProcessor.process envC1).temp_created = [] ∧
    (PDFProcessor.process envC1).ocr_attempted = false ∧
    (PDFProcessor.process envC1).raw_text = "CLEANED" := by
  have h := C1_amended envC1 [goodPage] rfl (by decide) (by decide)
  exact h

/-- Claim C2 (code evaluation at the failing input): a textless PDF for
which pdf2image successfully renders 3 pages.  The conversion is
attempted (ocr_attempted records images_extracted = True), yet not a
single OCR or vision call happens and no page image is ever saved: the
block that would save the pdf2image renderings is guarded by
not-images_extracted, which the successful conversion just set, so
page_images stays empty and the per-page loop runs zero times. -/
theorem C2_code_evaluation :
    (PDFProcessor.process envC2).events = [PdfEvent.convertAttempt] ∧
    (PDFProcessor.process envC2).temp_created = [] ∧
    (PDFProcessor.process envC2).ocr_attempted = true ∧
    (PDFProcessor.process envC2).ocr_success = false := by
  refine ⟨rfl, rfl, rfl, rfl⟩

/-- Claim C3 (counterexample): a document file whose extractor raises is
caught, but nothing is persisted: process_file returns False with the
store unchanged, so no degraded ContentRecord exists. -/
theorem C3_counterexample :
    NotesProcessor.process_file DB.empty "notes/f.txt" "document"
      (Call.returns (DocumentProcessor.process (Call.raises "read failed")))
      (Call.returns "somehash") "2025-01-10T00:00:00" =
      Except.ok (false, DB.empty) ∧
    DB.empty.contents = [] := ⟨rfl, rfl⟩

/-- Claim C3 (amended): an exception inside the document or image
extractor is converted to a None result, and process_file then returns
False leaving the store untouched - no degraded ContentRecord is
persisted; moreover process_file never lets any exception propagate,
whatever the processor and hash read do. -/
theorem C3_amended :
    (∀ (db : DB) (p ft m h now : String),
      NotesProcessor.process_file db p ft
        (Call.returns (DocumentProcessor.process (Call.raises m)))
        (Call.returns h) now = Except.ok (false, db)) ∧
    (∀ (db : DB) (p ft m h now : String),
      NotesProcessor.process_file db p ft
        (Call.returns (ImageProcessor.process (Call.raises m)))
        (Call.returns h) now = Except.ok (false, db)) ∧
    (∀ (db : DB) (p ft now : String) (pr : Call (Option ExtractResult))
        (hc : Call String),
      ∃ out, NotesProcessor.process_file db p ft pr hc now = Except.ok out) := by
  refine ⟨fun db p ft m h now => rfl, fun db p ft m h now => rfl, ?_⟩
  intro db p ft now pr hc
  cases pr with
  | raises m => exact ⟨(false, db), rfl⟩
  | returns res =>
    cases res with
    | none => exact ⟨(false, db), rfl⟩
    | some result =>
      cases hc with
      | raises m => exact ⟨(false, db), rfl⟩
      | returns file_hash =>
        simp only [NotesProcessor.process_file]
        cases hf : (DatabaseManager.add_file db p ft file_hash).2 with
        | none => exact ⟨_, rfl⟩
        | some fid =>
          cases hc2 : (DatabaseManager.add_content
              (DatabaseManager.add_file db p ft file_hash).1 fid "text"
              (if result.raw_text = "" ∧ ft = "pdf" then
                "No text could be extracted - this appears to be an image-based PDF"
               else result.raw_text) result.processed_text).2 with
          | none => exact ⟨_, rfl⟩
          | some cid => exact ⟨_, rfl⟩

/-- Claim C4 (counterexample): a window holding one ContentRecord whose
LLM digest step yields nothing: generate_weekly_digest returns None and
the store still holds no digest - nothing was created or persisted,
rather than degrading to a placeholder digest. -/
theorem C4_counterexample :
    DigestGenerator.generate_weekly_digest DB.empty [oneNoteContent] []
      Option.none "2025-01-03T00:00:00" "2025-01-10T00:00:00"
      "2025-01-10T00:00:01" = (Option.none, DB.empty) ∧
    DB.empty.digests = [] := ⟨rfl, rfl⟩

/-- Claim C4 (amended): over a window with at least one ContentRecord,
if the LLM step produces no digest text then generate_weekly_digest
aborts, returning None and persisting nothing; a digest is created and
persisted exactly when the LLM step returns non-empty text. -/
theorem C4_amended (db : DB) (pc ac : List ContentMeta) (s e now : String)
    (h : pc ≠ []) :
    DigestGenerator.generate_weekly_digest db pc ac Option.none s e now =
      (Option.none, db) ∧
    (∀ t, t ≠ "" → ∃ res,
      DigestGenerator.generate_weekly_digest db pc ac (Option.some t) s e now =
        (Option.some res, (DatabaseManager.save_digest db "weekly" t s e now).1) ∧
      (DatabaseManager.save_digest db "weekly" t s e now).1.digests =
        db.digests ++
          [{ id := db.digests.length + 1, digest_type := "weekly",
             start_date := s, end_date := e, content := t,
             created_date := now }]) := by
  constructor
  · show (if (if pc.isEmpty = true then List.take 50 ac else pc).isEmpty = true
        then ((Option.none, db) : Option (Option Nat × String) × DB)
        else (Option.none, db)) = (Option.none, db)
    exact ite_self _
  · intro t ht
    cases pc with
    | nil => exact absurd rfl h
    | cons a l =>
      unfold DigestGenerator.generate_weekly_digest
      simp only [List.isEmpty_cons, Bool.false_eq_true, if_false, if_neg ht]
      exact ⟨_, rfl, rfl⟩

/-- Claim C4 (witness): the amended theorem at a store with one content
record. -/
theorem C4_amended_witness :
    DigestGenerator.generate_weekly_digest DB.empty [oneNoteContent] []
      Option.none "s" "e" "n" = (Option.none, DB.empty) :=
  (C4_amended DB.empty [oneNoteContent] [] "s" "e" "n" (by decide)).1

/-- Claim C5 (code evaluation at the failing input): with exactly one
weekly digest in the store and a 28-day month, the collection loop
fetches the same latest weekly digest once per 7-day slot, giving 4
copies, so the trend branch is taken and the Trends section is the LLM
text, not the literal insufficient-data notice; the notice appears only
when the store holds no weekly digest at all. -/
theorem C5_single_digest_triggers_trends :
    dbOneWeekly.digests.length = 1 ∧
    DigestGenerator.collectWeeklyDigests dbOneWeekly 28 =
      [febWeekly, febWeekly, febWeekly, febWeekly] ∧
    DigestGenerator.monthlyTrendSection
      (DigestGenerator.collectWeeklyDigests dbOneWeekly 28)
      "An LLM trend report" = "An LLM trend report" ∧
    "An LLM trend report" ≠ DigestGenerator.insufficientTrendNotice ∧
    DigestGenerator.monthlyTrendSection
      (DigestGenerator.collectWeeklyDigests DB.empty 28)
      "An LLM trend report" = DigestGenerator.insufficientTrendNotice := by
  refine ⟨rfl, by decide, rfl, by decide, rfl⟩

/-- Claim C6 (code evaluation at the failing input): for the task set
of the claim, the rendered order is null-due incomplete task first, then the
due-dated incomplete task, then the completed task - not the claimed
due-dated-first order, because SQLite sorts NULL due dates before
non-NULL ones in ASC order once the NULLS LAST keyword is stripped from
the query. -/
theorem C6_null_due_sorts_first :
    (DigestGenerator.generate_task_list dbTasks true).map (fun t => t.id) =
      [1, 2, 3] ∧
    ([1, 2, 3] : List Nat) ≠ [2, 1, 3] ∧
    taskNullDue.completed = false ∧ taskNullDue.due_date = Option.none ∧
    taskWithDue.completed = false ∧
    taskWithDue.due_date = Option.some "2025-01-01" ∧
    taskDone.completed = true := by
  refine ⟨by decide, by decide, rfl, rfl, rfl, rfl, rfl⟩

/-- Claim C7 (counterexample): ingesting the same content hash under two
distinct paths creates two SourceFile rows - uniqueness is keyed on
file_path, not on the content hash. -/
theorem C7_counterexample :
    ((DatabaseManager.add_file
        (DatabaseManager.add_file DB.empty "notes/a.txt" "pdf" "h123").1
        "notes/b.txt" "pdf" "h123").1.files.map (fun f => f.file_hash) =
      ["h123", "h123"]) ∧
    ((DatabaseManager.add_file
        (DatabaseManager.add_file DB.empty "notes/a.txt" "pdf" "h123").1
        "notes/b.txt" "pdf" "h123").1.files.length = 2) := by
  refine ⟨by decide, by decide⟩

/-- Claim C7 (amended): re-ingesting the same file path is a no-op on
the files table (identity is the unique file_path, not the content
hash), and adding a tag name that already exists creates no duplicate
Tag row: the tags table is unchanged and the association reuses the
existing tag id. -/
theorem C7_amended (db : DB) (p t h t2 h2 : String) (cid : Nat) (tg : String)
    (htag : ∃ r ∈ db.tags, r.name = tg) :
    ((DatabaseManager.add_file (DatabaseManager.add_file db p t h).1 p t2 h2).1.files
      = (DatabaseManager.add_file db p t h).1.files) ∧
    ((DatabaseManager.add_tags db cid [tg]).tags = db.tags) ∧
    (∃ r, db.tags.find? (fun x => x.name = tg) = Option.some r ∧
      (cid, r.id) ∈ (DatabaseManager.add_tags db cid [tg]).content_tags) := by
  have hany : ((DatabaseManager.add_file db p t h).1.files.any
      (fun f => f.file_path = p)) = true := by
    unfold DatabaseManager.add_file
    by_cases hc : db.files.any (fun f => f.file_path = p) = true
    · rw [if_pos hc]
      exact hc
    · rw [if_neg hc]
      simp
  have hanyt : db.tags.any (fun x => x.name = tg) = true := by
    obtain ⟨r, hrm, hrn⟩ := htag
    exact List.any_eq_true.mpr ⟨r, hrm, by simp [hrn]⟩
  obtain ⟨r, hr⟩ := find?_mem_name db.tags tg htag
  refine ⟨?_, ?_, ?_⟩
  · rw [add_file_dup _ p t2 h2 hany]
  · show (DatabaseManager.addOneTag db cid tg).tags = db.tags
    simp only [DatabaseManager.addOneTag, hanyt, if_true, hr]
    split
    · rfl
    · rfl
  · refine ⟨r, hr, ?_⟩
    show (cid, r.id) ∈ (DatabaseManager.addOneTag db cid tg).content_tags
    simp only [DatabaseManager.addOneTag, hanyt, if_true, hr]
    split
    next hc =>
      obtain ⟨q, hqm, hqe⟩ := List.any_eq_true.mp hc
      obtain rfl : q = (cid, r.id) := by simpa using hqe
      exact hqm
    next hc => exact List.mem_append_right _ (List.mem_singleton.mpr rfl)

/-- Claim C7 (witness): the amended theorem at a store already holding
the tag named work. -/
theorem C7_amended_witness :
    ((DatabaseManager.add_tags dbWithTag 5 ["work"]).tags = dbWithTag.tags) ∧
    (5, 1) ∈ (DatabaseManager.add_tags dbWithTag 5 ["work"]).content_tags := by
  have h := C7_amended dbWithTag "a" "t" "h" "t2" "h2" 5 "work"
    ⟨{ id := 1, name := "work" }, by decide, rfl⟩
  refine ⟨h.2.1, ?_⟩
  obtain ⟨r, hr, hmem⟩ := h.2.2
  have hreq : r = { id := 1, name := "work" } := by
    have heval : dbWithTag.tags.find? (fun x => x.name = "work") =
        Option.some { id := 1, name := "work" } := rfl
    exact Option.some.inj (hr.symm.trans heval)
  rw [hreq] at hmem
  exact hmem

/-- Claim C8: every temporary rendered page image created during
PDFProcessor.process is removed before the method returns, for every
environment - all exceptions between rendering and cleanup are absorbed
by inner handlers, so the cleanup loop always runs, and the outer error
return is reachable only before any page image exists. -/
theorem C8_temp_images_always_cleaned (env : PdfEnv) :
    (PDFProcessor.process env).temp_remaining = [] := by
  obtain ⟨pgs, llmO, p2i, conv, fA, fR, ocrF⟩ := env
  cases pgs with
  | raises m => rfl
  | returns pages =>
    show osCleanup _ _ = []
    exact osCleanup_self _

/-- Claim C9 (counterexample): the response 42 contains no JSON array of
strings, yet extract_tasks and extract_tags return the parsed integer
itself, not the empty list: the whole-response json.loads succeeds and
its value is returned unchecked. -/
theorem C9_counterexample :
    LLMService.extract_tasks "some note text" (Option.some "42") =
      PyVal.num 42 ∧
    LLMService.extract_tags "some note text" (Option.some "42") =
      PyVal.num 42 ∧
    PyVal.num 42 ≠ PyVal.list [] := by
  refine ⟨rfl, rfl, ?_⟩
  intro h
  cases h

/-- Claim C9 (amended): extract_tasks and extract_tags never raise, and
they return the empty list whenever no JSON value can be recovered at
all - neither from the regex-matched array candidate nor from the whole
response - and also when the API call returned None; but a response that
parses as JSON of some other shape is returned as-is. -/
theorem C9_amended (text r : String)
    (hre : ∀ m, reSearchArrStr r = Option.some m → jsonLoads m = Option.none)
    (hwhole : jsonLoads r = Option.none) :
    LLMService.extract_tasks text (Option.some r) = PyVal.list [] ∧
    LLMService.extract_tags text (Option.some r) = PyVal.list [] ∧
    LLMService.extract_tasks text Option.none = PyVal.list [] ∧
    LLMService.extract_tags text Option.none = PyVal.list [] := by
  have hparse : LLMService.parseArrayResponse (Option.some r) = PyVal.list [] := by
    unfold LLMService.parseArrayResponse
    cases hm : reSearchArrStr r with
    | none => simp only [hm, hwhole]
    | some m => simp only [hm, hre m hm]
  have hnone : LLMService.parseArrayResponse Option.none = PyVal.list [] := rfl
  unfold LLMService.extract_tasks LLMService.extract_tags
  by_cases ht : text = "" <;> simp [ht, hparse, hnone]

/-- Claim C9 (witness): the amended theorem at a plain-prose response
with no array literal and no parseable JSON. -/
theorem C9_amended_witness :
    LLMService.extract_tasks "note text" (Option.some "no list today") =
      PyVal.list [] := by
  have h := C9_amended "note text" "no list today"
    (fun m hm => by
      rw [show reSearchArrStr "no list today" = Option.none from rfl] at hm
      cases hm)
    rfl
  exact h.1

/-- Claim C10 (counterexample): content that parses as a JSON object
whose messages value is the number 5 - valid JSON, neither a message
list nor an object with a messages list - does not yield empty raw_text:
iterating the non-iterable messages raises a TypeError and process
returns None. -/
theorem C10_counterexample :
    jsonLoads chatCexStr = Option.some (PyVal.dict [("messages", PyVal.num 5)]) ∧
    AIChatProcessor.process (Call.returns chatCexStr) = Option.none := by
  exact ⟨rfl, rfl⟩

/-- The role/content line of a non-object chat message element is
empty: only dict elements contribute text. -/
theorem chatMsgLine_eq_empty (m : PyVal) (h : m.isDict = false) :
    chatMsgLine m = "" := by
  cases m <;> simp_all [chatMsgLine, PyVal.isDict]

/-- A message list without any object element contributes no text at
all, whatever has been accumulated so far. -/
theorem chatFold_empty : ∀ (msgs : List PyVal),
    msgs.all (fun m => !m.isDict) = true →
    ∀ acc, msgs.foldl (fun acc m => acc ++ chatMsgLine m) acc = acc := by
  intro msgs
  induction msgs with
  | nil => intro h acc; rfl
  | cons a l ih =>
    intro h acc
    simp only [List.all_cons, Bool.and_eq_true] at h
    simp only [List.foldl_cons]
    rw [chatMsgLine_eq_empty a (by simpa using h.1), String.append_empty]
    exact ih h.2 acc

/-- Claim C10 (amended): when the content parses as valid JSON whose
top-level value is a bare scalar, a list with no object elements, or an
object whose messages value is absent, falsy, a string, an object, or a
list with no object elements, the processor returns empty raw_text, and
the flat-text fallback is taken exactly on JSON decode errors; but an
object whose messages value is truthy and non-iterable (a non-zero
number, or true) makes the message loop raise a TypeError and process
returns None instead of empty raw_text. -/
theorem C10_amended :
    (∀ s u, jsonLoads s = Option.some u → pyScalar u = true →
      AIChatProcessor.process (Call.returns s) =
        Option.some { raw_text := "", processed_text := Option.none,
                      tags := [], tasks := [] }) ∧
    (∀ s msgs, jsonLoads s = Option.some (PyVal.list msgs) →
      msgs.all (fun m => !m.isDict) = true →
      AIChatProcessor.process (Call.returns s) =
        Option.some { raw_text := "", processed_text := Option.none,
                      tags := [], tasks := [] }) ∧
    (∀ s kvs, jsonLoads s = Option.some (PyVal.dict kvs) →
      pyDictGet kvs "messages" = Option.none →
      AIChatProcessor.process (Call.returns s) =
        Option.some { raw_text := "", processed_text := Option.none,
                      tags := [], tasks := [] }) ∧
    (∀ s kvs m, jsonLoads s = Option.some (PyVal.dict kvs) →
      pyDictGet kvs "messages" = Option.some m → pyTruthy m = false →
      AIChatProcessor.process (Call.returns s) =
        Option.some { raw_text := "", processed_text := Option.none,
                      tags := [], tasks := [] }) ∧
    (∀ s kvs t, jsonLoads s = Option.some (PyVal.dict kvs) →
      pyDictGet kvs "messages" = Option.some (PyVal.str t) →
      AIChatProcessor.process (Call.returns s) =
        Option.some { raw_text := "", processed_text := Option.none,
                      tags := [], tasks := [] }) ∧
    (∀ s kvs kvs2, jsonLoads s = Option.some (PyVal.dict kvs) →
      pyDictGet kvs "messages" = Option.some (PyVal.dict kvs2) →
      AIChatProcessor.process (Call.returns s) =
        Option.some { raw_text := "", processed_text := Option.none,
                      tags := [], tasks := [] }) ∧
    (∀ s kvs msgs, jsonLoads s = Option.some (PyVal.dict kvs) →
      pyDictGet kvs "messages" = Option.some (PyVal.list msgs) →
      msgs.all (fun m => !m.isDict) = true →
      AIChatProcessor.process (Call.returns s) =
        Option.some { raw_text := "", processed_text := Option.none,
                      tags := [], tasks := [] }) ∧
    (∀ s kvs n, jsonLoads s = Option.some (PyVal.dict kvs) →
      pyDictGet kvs "messages" = Option.some (PyVal.num n) → n ≠ 0 →
      AIChatProcessor.process (Call.returns s) = Option.none) ∧
    (∀ s kvs, jsonLoads s = Option.some (PyVal.dict kvs) →
      pyDictGet kvs "messages" = Option.some (PyVal.bool true) →
      AIChatProcessor.process (Call.returns s) = Option.none) ∧
    (∀ s, jsonLoads s = Option.none →
      AIChatProcessor.process (Call.returns s) =
        Option.some { raw_text := s, processed_text := Option.none,
                      tags := BaseProcessor.extract_tags s,
                      tasks := BaseProcessor.extract_tasks s }) := by
  refine ⟨?_, ?_, ?_, ?_, ?_, ?_, ?_, ?_, ?_, ?_⟩
  · intro s u hj hs
    unfold AIChatProcessor.process
    simp only [hj]
    cases u with
    | str v => rfl
    | num v => rfl
    | flt v => rfl
    | bool v => rfl
    | null => rfl
    | list xs => cases hs
    | dict kvs => cases hs
  · intro s msgs hj hall
    unfold AIChatProcessor.process
    simp only [hj]
    have hext : chatExtractText (PyVal.list msgs) = Except.ok "" := by
      show Except.ok (msgs.foldl (fun acc m => acc ++ chatMsgLine m) "") =
        Except.ok ""
      rw [chatFold_empty msgs hall ""]
    rw [hext]
    rfl
  · intro s kvs hj hget
    unfold AIChatProcessor.process
    simp only [hj]
    have hext : chatExtractText (PyVal.dict kvs) = Except.ok "" := by
      unfold chatExtractText
      simp only [hget, Option.getD_none, pyTruthy, List.isEmpty_nil,
        Bool.not_true, Bool.false_eq_true, if_false]
    rw [hext]
    rfl
  · intro s kvs m hj hget hfalse
    unfold AIChatProcessor.process
    simp only [hj]
    have hext : chatExtractText (PyVal.dict kvs) = Except.ok "" := by
      unfold chatExtractText
      simp only [hget, Option.getD_some, hfalse, Bool.false_eq_true, if_false]
    rw [hext]
    rfl
  · intro s kvs t hj hget
    unfold AIChatProcessor.process
    simp only [hj]
    have hext : chatExtractText (PyVal.dict kvs) = Except.ok "" := by
      unfold chatExtractText
      simp only [hget, Option.getD_some]
      split
      · rfl
      · rfl
    rw [hext]
    rfl
  · intro s kvs kvs2 hj hget
    unfold AIChatProcessor.process
    simp only [hj]
    have hext : chatExtractText (PyVal.dict kvs) = Except.ok "" := by
      unfold chatExtractText
      simp only [hget, Option.getD_some]
      split
      · rfl
      · rfl
    rw [hext]
    rfl
  · intro s kvs msgs hj hget hall
    unfold AIChatProcessor.process
    simp only [hj]
    have hext : chatExtractText (PyVal.dict kvs) = Except.ok "" := by
      unfold chatExtractText
      simp only [hget, Option.getD_some]
      split
      · show Except.ok (msgs.foldl (fun acc m => acc ++ chatMsgLine m) "") =
          Except.ok ""
        rw [chatFold_empty msgs hall ""]
      · rfl
    rw [hext]
    rfl
  · intro s kvs n hj hget hn
    unfold AIChatProcessor.process
    simp only [hj]
    have hext : chatExtractText (PyVal.dict kvs) =
        Except.error "TypeError: object is not iterable" := by
      unfold chatExtractText
      simp only [hget, Option.getD_some, pyTruthy]
      rw [if_pos (by simp [hn])]
    rw [hext]
  · intro s kvs hj hget
    unfold AIChatProcessor.process
    simp only [hj]
    have hext : chatExtractText (PyVal.dict kvs) =
        Except.error "TypeError: object is not iterable" := by
      unfold chatExtractText
      simp only [hget, Option.getD_some, pyTruthy, ite_true]
    rw [hext]
  · intro s hj
    unfold AIChatProcessor.process
    simp only [hj]

/-- Claim C10 (witness): the amended theorem at a bare JSON string. -/
theorem C10_amended_witness :
    AIChatProcessor.process (Call.returns "\"hello\"") =
      Option.some { raw_text := "", processed_text := Option.none,
                    tags := [], tasks := [] } :=
  C10_amended.1 "\"hello\"" (PyVal.str "hello") rfl rfl
